import Mathlib

/-!
Verification of the claude-monitor daemon (src/skills/claude-monitor/main.py).

Shallow embedding conventions:
* JSON `dict.get(key)` access is modelled with `Option` fields; `dict.get(key, d)`
  becomes `Option.getD` at the use site, mirroring where the source applies defaults.
* Python truthiness of strings (`if not s`, `a or b`) is modelled by `truthy`:
  `none` and `some ""` are falsy.
* Wall-clock time `time.time()` is a rational number of seconds; `int(x)` is
  truncation toward zero (`pyInt`).
* UTC calendar dates ("YYYY-MM-DD" strings produced by strftime) are modelled as
  integer day numbers (days since 1970-01-01, which was a Thursday).  For
  well-formed zero-padded date strings, Python string comparison (`==`, `>=`)
  coincides with the numeric order of day numbers, and `datetime.weekday()`
  (Monday = 0) equals `(d + 3) % 7`.  A missing `date` key yields `""` in the
  source, which compares `>=` false against every real date string; it is
  modelled as `none`.
* The outcome of the single outbound HTTP token-exchange call is an input to the
  embedded function (`HttpOutcome`): a transport/JSON exception, or a status
  code with an optionally parseable body.
-/

namespace ClaudeMonitor

/-- Python truthiness for an optional string: `None` and `""` are falsy. -/
def truthy : Option String → Bool
  | none => false
  | some s => !(s == "")

/-- Python `int()` on a rational: truncation toward zero. -/
def pyInt (q : ℚ) : ℤ := if 0 ≤ q then ⌊q⌋ else ⌈q⌉

/-- The `claudeAiOauth` credential record, fields as read with `dict.get`. -/
structure Creds where
  accessToken : Option String
  refreshToken : Option String
  expiresAt : Option ℤ
  scopes : Option (List String)
  subscriptionType : Option String
  rateLimitTier : Option String
deriving DecidableEq, Repr

/-- Source `token_expires_soon` (main.py:163-170): remaining seconds until the
`expiresAt` epoch-ms stamp (default 0 when absent), compared with the buffer. -/
def token_expires_soon (creds : Creds) (buffer : ℚ) (now : ℚ) : Bool :=
  let expires_at_ms : ℤ := creds.expiresAt.getD 0
  let expires_at : ℚ := (expires_at_ms : ℚ) / 1000
  let remaining : ℚ := expires_at - now
  decide (remaining < buffer)

/-- Parsed JSON body of a token-exchange response. -/
structure RespBody where
  access_token : Option String
  refresh_token : Option String
  expires_in : Option ℤ
deriving DecidableEq, Repr

/-- Outcome of the outbound `requests.post` to the token endpoint:
either a transport exception, or a status code with a body (`none` when
`resp.json()` raises, which the source catches in the same `except`). -/
inductive HttpOutcome where
  | exn (msg : String)
  | resp (status : ℕ) (body : Option RespBody)
deriving DecidableEq, Repr

/-- Result of `refresh_token`: the returned boolean plus the credential record
written to the credential file, if any. -/
structure RefreshResult where
  success : Bool
  written : Option Creds
deriving DecidableEq, Repr

/-- Source `refresh_token` (main.py:173-229).  Fails (returning `false`, writing
nothing) when the record has no truthy refresh token, on a transport exception,
on a status other than exactly 200, on an unparseable body, or on a missing
access token; otherwise builds and writes the full replacement record. -/
def refresh_token (creds : Creds) (http : HttpOutcome) (now : ℚ) : RefreshResult :=
  let refresh_tok := creds.refreshToken
  if !(truthy refresh_tok) then ⟨false, none⟩
  else
    match http with
    | .exn _ => ⟨false, none⟩
    | .resp status body =>
      if status ≠ 200 then ⟨false, none⟩
      else
        match body with
        | none => ⟨false, none⟩
        | some data =>
          let new_access := data.access_token
          let new_refresh := data.refresh_token
          let expires_in : ℤ := data.expires_in.getD 28800
          if !(truthy new_access) then ⟨false, none⟩
          else
            let new_creds : Creds :=
              { accessToken := new_access
                refreshToken := if truthy new_refresh then new_refresh else refresh_tok
                expiresAt := some (pyInt ((now + (expires_in : ℚ)) * 1000))
                scopes := some (creds.scopes.getD [])
                subscriptionType := some (creds.subscriptionType.getD "")
                rateLimitTier := some (creds.rateLimitTier.getD "") }
            ⟨true, some new_creds⟩

/-- Python `weekday()` (Monday = 0) of a day number (1970-01-01 was a Thursday). -/
def pyWeekday (d : ℤ) : ℤ := (d + 3) % 7

/-- One record of the `dailyActivity` array in stats-cache.json. -/
structure DayActivity where
  date : Option ℤ
  messageCount : Option ℤ
  sessionCount : Option ℤ
deriving DecidableEq, Repr

/-- One record of the `dailyModelTokens` array in stats-cache.json. -/
structure DayTokens where
  date : Option ℤ
  tokensByModel : Option (List (String × ℤ))
deriving DecidableEq, Repr

/-- One value of the `modelUsage` map in stats-cache.json. -/
structure ModelUsage where
  costUSD : Option ℚ
deriving DecidableEq, Repr

/-- Parsed stats-cache.json content; each top-level key read with a default. -/
structure StatsData where
  dailyActivity : Option (List DayActivity)
  dailyModelTokens : Option (List DayTokens)
  modelUsage : Option (List (String × ModelUsage))
deriving DecidableEq, Repr

/-- The result dict of `get_today_usage`. -/
structure DailyUsage where
  output_tokens : ℤ
  messages : ℤ
  sessions : ℤ
  cost_usd : ℚ
deriving DecidableEq, Repr

/-- The result dict of `get_weekly_usage` (no cost key in the source). -/
structure WeeklyUsage where
  output_tokens : ℤ
  messages : ℤ
  sessions : ℤ
deriving DecidableEq, Repr

/-- Source `get_today_usage` (main.py:235-267).  The `stats` argument is `none`
when the file is missing or unreadable (the source's early returns).  The
`for ... break` loops take the first record whose date equals today. -/
def get_today_usage (stats : Option StatsData) (today : ℤ) : DailyUsage :=
  match stats with
  | none => ⟨0, 0, 0, 0⟩
  | some data =>
    let act := (data.dailyActivity.getD []).find? (fun day => day.date == some today)
    let messages : ℤ := match act with
      | some day => day.messageCount.getD 0
      | none => 0
    let sessions : ℤ := match act with
      | some day => day.sessionCount.getD 0
      | none => 0
    let tok := (data.dailyModelTokens.getD []).find? (fun day => day.date == some today)
    let output_tokens : ℤ := match tok with
      | some day => (day.tokensByModel.getD []).foldl (fun acc p => acc + p.2) 0
      | none => 0
    let cost_usd : ℚ :=
      (data.modelUsage.getD []).foldl (fun acc p => acc + p.2.costUSD.getD 0) 0
    ⟨output_tokens, messages, sessions, cost_usd⟩

/-- The source's `day.get("date", "") >= monday_str` test: a missing date key
yields `""`, which is `>=` no well-formed date string. -/
def dateGe (d : Option ℤ) (monday : ℤ) : Bool :=
  match d with
  | none => false
  | some x => decide (monday ≤ x)

/-- Source `get_weekly_usage` (main.py:270-297): sum counts over every record
whose date is at least the Monday of the current week (`now - weekday(now)`). -/
def get_weekly_usage (stats : Option StatsData) (now : ℤ) : WeeklyUsage :=
  match stats with
  | none => ⟨0, 0, 0⟩
  | some data =>
    let monday : ℤ := now - pyWeekday now
    let messages : ℤ := (data.dailyActivity.getD []).foldl
      (fun acc day => if dateGe day.date monday then acc + day.messageCount.getD 0 else acc) 0
    let sessions : ℤ := (data.dailyActivity.getD []).foldl
      (fun acc day => if dateGe day.date monday then acc + day.sessionCount.getD 0 else acc) 0
    let output_tokens : ℤ := (data.dailyModelTokens.getD []).foldl
      (fun acc day =>
        if dateGe day.date monday then
          (day.tokensByModel.getD []).foldl (fun a p => a + p.2) acc
        else acc) 0
    ⟨output_tokens, messages, sessions⟩

/-- The persisted daemon state dict (main.py:61-69 gives the default record). -/
structure DaemonState where
  last_refresh_utc : Option String
  refresh_count : ℤ
  last_warn_utc : Option String
  daily_tokens_warned : Bool
  daily_tokens_warned_date : Option ℤ
  total_refreshes : ℤ
  errors : List String
deriving DecidableEq, Repr

/-- The default state record returned by `load_state` when the file is absent
or unreadable (main.py:61-69). -/
def initialState : DaemonState :=
  { last_refresh_utc := none
    refresh_count := 0
    last_warn_utc := none
    daily_tokens_warned := false
    daily_tokens_warned_date := none
    total_refreshes := 0
    errors := [] }

/-- Configuration read from the environment at startup (main.py:38-41). -/
structure Config where
  usage_warn_percent : ℤ
  token_refresh_buffer_secs : ℤ
  daily_output_token_budget : ℤ
deriving DecidableEq, Repr

/-- The external world as observed by one iteration of the main loop:
current time, the credential file, the token-endpoint outcome (used only if a
refresh is attempted), the stats cache, and whether `save_state` raises. -/
structure TickInput where
  today : ℤ
  nowSec : ℚ
  nowIso : String
  credsFile : Option (Option Creds)
  http : HttpOutcome
  stats : Option (Option StatsData)
  saveExn : Option String
deriving DecidableEq, Repr

/-- Observable effects of one loop iteration: the in-memory state after the
body ran, whether a refresh was attempted, the credential record written (if
any), the two kinds of Telegram alerts, and an exception reaching the tick
boundary (caught by the `except Exception` at main.py:386). -/
structure TickResult where
  state : DaemonState
  refreshAttempted : Bool
  credWrite : Option Creds
  refreshFailAlert : Bool
  usageAlert : Bool
  raised : Option String
deriving DecidableEq, Repr

/-- Python `l[-10:]` generalised: the last `n` elements of a list. -/
def lastN (n : ℕ) (l : List String) : List String := l.drop (l.length - n)

/-- The error message appended on a failed refresh (main.py:343). -/
def refreshFailMsg (nowIso : String) : String :=
  "Claude token refresh FAILED at " ++ nowIso

/-- The usage percentage of main.py:362, including its divide-by-zero guard. -/
def usagePct (budget : ℤ) (output_tokens : ℤ) : ℚ :=
  if budget > 0 then (output_tokens : ℚ) / (budget : ℚ) * 100 else 0

/-- The date-rollover step (main.py:329-331): reset the daily warning flag on a
new day, before the threshold is evaluated. -/
def rollover (today : ℤ) (state : DaemonState) : DaemonState :=
  if state.daily_tokens_warned_date ≠ some today then
    { state with daily_tokens_warned := false
                 daily_tokens_warned_date := some today }
  else state

/-- The token-refresh section of one iteration (main.py:334-351).  Returns the
updated state, whether a refresh was attempted, the credential write (if any),
and whether the critical refresh-failure alert was sent. -/
def refreshStep (cfg : Config) (state : DaemonState) (inp : TickInput) :
    DaemonState × Bool × Option Creds × Bool :=
  match inp.credsFile with
  | some (some creds) =>
    if token_expires_soon creds (cfg.token_refresh_buffer_secs : ℚ) inp.nowSec then
      let r := refresh_token creds inp.http inp.nowSec
      if r.success then
        ({ state with last_refresh_utc := some inp.nowIso
                      refresh_count := state.refresh_count + 1
                      total_refreshes := state.total_refreshes + 1 },
         true, r.written, false)
      else
        ({ state with errors := lastN 10 (state.errors ++ [refreshFailMsg inp.nowIso]) },
         true, none, true)
    else (state, false, none, false)
  | _ => (state, false, none, false)

/-- The usage-monitoring section of one iteration (main.py:355-381).  Returns
the updated state and whether the usage warning alert was sent. -/
def usageStep (cfg : Config) (state : DaemonState) (inp : TickInput) :
    DaemonState × Bool :=
  match inp.stats with
  | some content =>
    let daily := get_today_usage content inp.today
    let _weekly := get_weekly_usage content inp.today
    let pct := usagePct cfg.daily_output_token_budget daily.output_tokens
    if (cfg.usage_warn_percent : ℚ) ≤ pct ∧ state.daily_tokens_warned = false then
      ({ state with daily_tokens_warned := true }, true)
    else (state, false)
  | none => (state, false)

/-- One iteration of the main loop body (main.py:324-384): date rollover of the
warn latch, conditional token refresh with error-log bookkeeping, usage
monitoring with the one-shot daily alert, then `save_state` (whose only
modelled effect is the possibility of raising, recorded in `raised`; the
in-memory dict mutations before it persist either way). -/
def tick (cfg : Config) (state : DaemonState) (inp : TickInput) : TickResult :=
  let st1 := rollover inp.today state
  let rs := refreshStep cfg st1 inp
  let us := usageStep cfg rs.1 inp
  { state := us.1
    refreshAttempted := rs.2.1
    credWrite := rs.2.2.1
    refreshFailAlert := rs.2.2.2
    usageAlert := us.2
    raised := inp.saveExn }

/-- The `while True` scheduler loop (main.py:323-390) over a finite trace of
tick inputs: the `except Exception` at the tick boundary catches any raise, so
every input is processed and the loop carries the in-memory state forward. -/
def runLoop (cfg : Config) : DaemonState → List TickInput → DaemonState × List TickResult
  | st, [] => (st, [])
  | st, i :: is =>
    let r := tick cfg st i
    let rest := runLoop cfg r.state is
    (rest.1, r :: rest.2)

/-- The daily warn latch is set for day `d`: warned, with the warned-date
recording `d`. -/
def warnedFor (d : ℤ) (st : DaemonState) : Prop :=
  st.daily_tokens_warned = true ∧ st.daily_tokens_warned_date = some d

/-- Number of usage alerts in a trace of tick results. -/
def alertCount (rs : List TickResult) : ℕ :=
  (rs.filter (fun r => r.usageAlert)).length

/-! Concrete records used to instantiate theorems on explicit inputs. -/

/-- A full credential record, expiring at epoch second 7200. -/
def exCreds : Creds :=
  ⟨some "old-access", some "refresh-1", some 7200000, some ["user:inference"], some "pro", some "t1"⟩

/-- A credential record with no `expiresAt` key at all. -/
def exCredsNoExpiry : Creds :=
  ⟨some "old-access", some "refresh-1", none, some [], some "", some ""⟩

/-- A token-exchange response body carrying only an access token. -/
def exBodyMin : RespBody := ⟨some "new-access", none, none⟩

/-- A token-exchange response body with all optional fields present. -/
def exBodyFull : RespBody := ⟨some "new-access", some "refresh-2", some 3600⟩

/-- Configuration of the spec's latch example: warn at 85%, budget 1000. -/
def exCfg : Config := ⟨85, 3600, 1000⟩

/-- A degenerate configuration: warn percent 0 and budget 0. -/
def exCfgZero : Config := ⟨0, 3600, 0⟩

/-- A stats cache with 850 output tokens recorded for day 0. -/
def exStats850 : StatsData := ⟨some [], some [⟨some 0, some [("claude", 850)]⟩], some []⟩

/-- A stats cache with 900 output tokens recorded for day 0. -/
def exStats900 : StatsData := ⟨some [], some [⟨some 0, some [("claude", 900)]⟩], some []⟩

/-- A stats cache for the weekly example: `now = 8` is the Friday of the week
whose Monday is day 4; activity on Monday 4, Wednesday 6, Friday 8, and the
prior Sunday 3. -/
def exStatsWeek : StatsData :=
  ⟨some [⟨some 3, some 70, some 7⟩, ⟨some 4, some 10, some 1⟩,
         ⟨some 6, some 20, some 2⟩, ⟨some 8, some 30, some 3⟩],
   some [⟨some 3, some [("claude", 700)]⟩, ⟨some 4, some [("claude", 100)]⟩,
         ⟨some 6, some [("claude", 200)]⟩, ⟨some 8, some [("claude", 300)]⟩],
   some []⟩

/-- Tick input: day 0, usage cache showing 850 tokens, no credential file. -/
def exInp850 : TickInput := ⟨0, 1000, "T1", none, .exn "unused", some (some exStats850), none⟩

/-- Tick input: same day 0, usage cache now showing 900 tokens. -/
def exInp900 : TickInput := ⟨0, 2000, "T2", none, .exn "unused", some (some exStats900), none⟩

/-- Tick input: credential file present with `exCreds`, token expiring soon at
`nowSec = 10000`, and the exchange raising a network timeout. -/
def exInpFail : TickInput := ⟨0, 10000, "T3", some (some exCreds), .exn "timeout", none, none⟩

/-- Tick input: stats path found but the cache unreadable; no credential file. -/
def exInpZero : TickInput := ⟨0, 1000, "T4", none, .exn "unused", some none, none⟩

/-! Helper lemmas. -/

lemma pyInt_intCast (k : ℤ) : pyInt (k : ℚ) = k := by
  unfold pyInt
  split <;> simp

lemma foldl_add_map {α M : Type*} [AddCommMonoid M] (f : α → M) (l : List α) :
    ∀ a : M, l.foldl (fun acc x => acc + f x) a = a + (l.map f).sum := by
  induction l with
  | nil => intro a; simp
  | cons x xs ih => intro a; simp [ih, add_assoc]

lemma foldl_filter_add_map {α M : Type*} [AddCommMonoid M] (p : α → Bool) (f : α → M)
    (l : List α) :
    ∀ a : M, l.foldl (fun acc x => if p x then acc + f x else acc) a
      = a + ((l.filter p).map f).sum := by
  induction l with
  | nil => intro a; simp
  | cons x xs ih =>
    intro a
    by_cases hp : p x
    · simp [hp, ih, add_assoc]
    · simp [hp, ih]

lemma foldl_filter_nested {α β M : Type*} [AddCommMonoid M] (p : α → Bool)
    (g : α → List β) (h : β → M) (l : List α) :
    ∀ a : M,
      l.foldl (fun acc x => if p x then (g x).foldl (fun y q => y + h q) acc else acc) a
        = a + ((l.filter p).map (fun x => ((g x).map h).sum)).sum := by
  intro a
  rw [List.foldl_ext _ (fun acc x => if p x then acc + ((g x).map h).sum else acc) a ?_]
  · exact foldl_filter_add_map p (fun x => ((g x).map h).sum) l a
  · intro acc x _
    by_cases hp : p x <;> simp [hp, foldl_add_map]

/-! Claim theorems. -/

/-- C5: for every buffer `b`, expiry stamp `e` (epoch ms, default 0 when the
key is absent) and current time `now`, `token_expires_soon` returns true iff
`e/1000 - now < b`; in particular an already-negative remaining time with a
non-negative buffer also returns true. -/
theorem C5_expires_soon_iff (creds : Creds) (buffer now : ℚ) :
    (token_expires_soon creds buffer now = true ↔
      ((creds.expiresAt.getD 0 : ℤ) : ℚ) / 1000 - now < buffer) ∧
    (((creds.expiresAt.getD 0 : ℤ) : ℚ) / 1000 - now < 0 → 0 ≤ buffer →
      token_expires_soon creds buffer now = true) := by
  constructor
  · simp [token_expires_soon]
  · intro h1 h2
    simp only [token_expires_soon, decide_eq_true_eq]
    exact lt_of_lt_of_le h1 h2

theorem C5_expires_soon_iff_witness :
    (((exCreds.expiresAt.getD 0 : ℤ) : ℚ) / 1000 - 10000 < 0 ∧ (0 : ℚ) ≤ 3600) ∧
    token_expires_soon exCreds 3600 10000 = true :=
  ⟨⟨by norm_num [exCreds], by norm_num⟩,
   (C5_expires_soon_iff exCreds 3600 10000).2 (by norm_num [exCreds]) (by norm_num)⟩

/-- C10: a credential record with no `expiresAt` key is treated as expiring at
epoch 0, so for any positive current time and non-negative buffer
`token_expires_soon` returns true, and a tick seeing such a record always
attempts a refresh. -/
theorem C10_no_expiry_always_soon (creds : Creds) (h : creds.expiresAt = none) :
    (∀ buffer now : ℚ, 0 < now → 0 ≤ buffer → token_expires_soon creds buffer now = true) ∧
    (∀ (cfg : Config) (st : DaemonState) (inp : TickInput),
      inp.credsFile = some (some creds) → 0 < inp.nowSec →
      0 ≤ cfg.token_refresh_buffer_secs →
      (tick cfg st inp).refreshAttempted = true) := by
  have key : ∀ buffer now : ℚ, 0 < now → 0 ≤ buffer →
      token_expires_soon creds buffer now = true := by
    intro buffer now hn hb
    simp only [token_expires_soon, h, Option.getD_none, Int.cast_zero, zero_div, zero_sub,
      decide_eq_true_eq]
    linarith
  refine ⟨key, ?_⟩
  intro cfg st inp hc hn hb
  have hb' : (0 : ℚ) ≤ (cfg.token_refresh_buffer_secs : ℚ) := by exact_mod_cast hb
  have hsoon := key (cfg.token_refresh_buffer_secs : ℚ) inp.nowSec hn hb'
  simp only [tick, refreshStep, hc, hsoon, if_true]
  split <;> rfl

theorem C10_no_expiry_always_soon_witness :
    (exCredsNoExpiry.expiresAt = none ∧ (0 : ℚ) < 1000 ∧ (0 : ℚ) ≤ 3600) ∧
    token_expires_soon exCredsNoExpiry 3600 1000 = true :=
  ⟨⟨rfl, by norm_num, by norm_num⟩,
   (C10_no_expiry_always_soon exCredsNoExpiry rfl).1 3600 1000 (by norm_num) (by norm_num)⟩

lemma refresh_token_shape (c : Creds) (h : HttpOutcome) (n : ℚ) :
    refresh_token c h n = ⟨false, none⟩ ∨ ∃ w, refresh_token c h n = ⟨true, some w⟩ := by
  unfold refresh_token
  cases htr : truthy c.refreshToken
  · left; simp [htr]
  · cases h with
    | exn m => left; simp [htr]
    | resp s b =>
      by_cases hs : s = 200
      · subst hs
        cases b with
        | none => left; simp [htr]
        | some d =>
          cases hta : truthy d.access_token
          · left; simp [htr, hta]
          · right
            refine ⟨{ accessToken := d.access_token
                      refreshToken :=
                        if truthy d.refresh_token then d.refresh_token else c.refreshToken
                      expiresAt :=
                        some (pyInt ((n + ((d.expires_in.getD 28800 : ℤ) : ℚ)) * 1000))
                      scopes := some (c.scopes.getD [])
                      subscriptionType := some (c.subscriptionType.getD "")
                      rateLimitTier := some (c.rateLimitTier.getD "") }, ?_⟩
            simp [htr, hta]
      · left; simp [htr, hs]

/-- C3: a successful token exchange (status 200, parseable body with a truthy
access token, prior record holding a truthy refresh token) produces a full
replacement record: the response's access token; the response's refresh token
when supplied (non-empty), else the prior one; expiry `now + expires_in`
seconds (default 28800) in epoch milliseconds; scopes, subscription type and
rate-limit tier carried over; and the new record always holds a usable refresh
token, so refreshing can be repeated. -/
theorem C3_refresh_success (creds : Creds) (body : RespBody) (now : ℤ)
    (rt : String) (hrt : creds.refreshToken = some rt) (hrtne : rt ≠ "")
    (a : String) (ha : body.access_token = some a) (hane : a ≠ "")
    (sc : List String) (hsc : creds.scopes = some sc)
    (sub : String) (hsub : creds.subscriptionType = some sub)
    (tier : String) (htier : creds.rateLimitTier = some tier) :
    ∃ w : Creds,
      refresh_token creds (.resp 200 (some body)) ((now : ℤ) : ℚ) = ⟨true, some w⟩ ∧
      w.accessToken = some a ∧
      (∀ r : String, body.refresh_token = some r → r ≠ "" → w.refreshToken = some r) ∧
      ((body.refresh_token = none ∨ body.refresh_token = some "") →
        w.refreshToken = some rt) ∧
      w.expiresAt = some (now * 1000 + body.expires_in.getD 28800 * 1000) ∧
      w.scopes = some sc ∧
      w.subscriptionType = some sub ∧
      w.rateLimitTier = some tier ∧
      truthy w.refreshToken = true := by
  have htr : truthy creds.refreshToken = true := by simp [truthy, hrt, hrtne]
  have hta : truthy body.access_token = true := by simp [truthy, ha, hane]
  refine ⟨{ accessToken := body.access_token
            refreshToken :=
              if truthy body.refresh_token then body.refresh_token else creds.refreshToken
            expiresAt := some (pyInt (((now : ℚ) + ((body.expires_in.getD 28800 : ℤ) : ℚ)) * 1000))
            scopes := some (creds.scopes.getD [])
            subscriptionType := some (creds.subscriptionType.getD "")
            rateLimitTier := some (creds.rateLimitTier.getD "") },
          ?_, ?_, ?_, ?_, ?_, ?_, ?_, ?_, ?_⟩
  · unfold refresh_token
    simp [htr, hta]
  · exact ha
  · intro r hr hrne
    simp [hr, truthy, hrne]
  · rintro (hn | hn) <;> simp [hn, truthy, hrt]
  · have hcast : ((now : ℚ) + ((body.expires_in.getD 28800 : ℤ) : ℚ)) * 1000
        = ((now * 1000 + body.expires_in.getD 28800 * 1000 : ℤ) : ℚ) := by
      push_cast; ring
    rw [hcast, pyInt_intCast]
  · simp [hsc]
  · simp [hsub]
  · simp [htier]
  · by_cases hb : truthy body.refresh_token
    · simp [hb]
    · simp [hb, htr]

theorem C3_refresh_success_witness :
    (exCreds.refreshToken = some "refresh-1" ∧ ("refresh-1" : String) ≠ "" ∧
      exBodyFull.access_token = some "new-access" ∧ ("new-access" : String) ≠ "") ∧
    (refresh_token exCreds (.resp 200 (some exBodyFull)) ((100 : ℤ) : ℚ)).success = true := by
  refine ⟨⟨rfl, by decide, rfl, by decide⟩, ?_⟩
  obtain ⟨w, hw, -⟩ := C3_refresh_success exCreds exBodyFull 100 "refresh-1" rfl (by decide)
    "new-access" rfl (by decide) ["user:inference"] rfl "pro" rfl "t1" rfl
  rw [hw]

/-- C4 counterexample: a 2xx-but-not-200 status (201) with a perfectly good
body and a usable refresh token is still a failure in the code, although none
of the claim's four failure conditions holds. -/
theorem C4_counterexample_201 :
    (refresh_token exCreds (.resp 201 (some exBodyMin)) 0).success = false ∧
    truthy exCreds.refreshToken = true ∧
    truthy exBodyMin.access_token = true ∧
    (200 ≤ 201 ∧ 201 < 300) := by decide

/-- C4 (amended): refresh fails iff the record's refresh token is not truthy,
or a transport exception occurred, or the status is not exactly 200 (any other
status, 2xx included), or the 200 response body is unparseable, or the body's
access token is not truthy; and every failure leaves the credential file
unwritten. -/
theorem C4_refresh_failure_iff (creds : Creds) (http : HttpOutcome) (now : ℚ) :
    ((refresh_token creds http now).success = false ↔
      truthy creds.refreshToken = false ∨
      (∃ m, http = .exn m) ∨
      (∃ s b, http = .resp s b ∧ s ≠ 200) ∨
      http = .resp 200 none ∨
      (∃ s body, http = .resp s (some body) ∧ truthy body.access_token = false)) ∧
    ((refresh_token creds http now).success = false →
      (refresh_token creds http now).written = none) := by
  constructor
  · cases htr : truthy creds.refreshToken
    · simp only [refresh_token, htr, Bool.not_false, if_true]
      tauto
    · cases http with
      | exn m =>
        simp only [refresh_token, htr, Bool.not_true, if_false]
        tauto
      | resp s b =>
        by_cases hs : s = 200
        · subst hs
          cases b with
          | none =>
            simp only [refresh_token, htr, Bool.not_true, if_false, ite_not, if_pos rfl]
            tauto
          | some d =>
            cases hta : truthy d.access_token
            · simp [refresh_token, htr, hta]
              tauto
            · simp [refresh_token, htr, hta]
        · simp [refresh_token, htr, hs]
  · intro hf
    rcases refresh_token_shape creds http now with hsh | ⟨w, hsh⟩
    · rw [hsh]
    · rw [hsh] at hf
      cases hf

theorem C4_refresh_failure_iff_witness :
    ((HttpOutcome.exn "timeout" : HttpOutcome) = .exn "timeout") ∧
    (refresh_token exCreds (.exn "timeout") 0).success = false ∧
    (refresh_token exCreds (.exn "timeout") 0).written = none := by
  refine ⟨rfl, ?_, ?_⟩
  · exact (C4_refresh_failure_iff exCreds (.exn "timeout") 0).1.mpr
      (Or.inr (Or.inl ⟨"timeout", rfl⟩))
  · exact (C4_refresh_failure_iff exCreds (.exn "timeout") 0).2
      ((C4_refresh_failure_iff exCreds (.exn "timeout") 0).1.mpr
        (Or.inr (Or.inl ⟨"timeout", rfl⟩)))

/-- C6: the daily snapshot takes message/session counts from the first
`dailyActivity` record dated today (zero when none), sums today's
`dailyModelTokens` across all models into `output_tokens`, sums `costUSD`
across all historical `modelUsage` entries (cumulative, not day-scoped), and a
missing or unparseable cache yields the all-zero snapshot. -/
theorem C6_today_usage (today : ℤ) :
    get_today_usage none today = ⟨0, 0, 0, 0⟩ ∧
    ∀ data : StatsData,
      (∀ day, (data.dailyActivity.getD []).find? (fun d => d.date == some today) = some day →
        (get_today_usage (some data) today).messages = day.messageCount.getD 0 ∧
        (get_today_usage (some data) today).sessions = day.sessionCount.getD 0 ∧
        day.date = some today) ∧
      ((data.dailyActivity.getD []).find? (fun d => d.date == some today) = none →
        (get_today_usage (some data) today).messages = 0 ∧
        (get_today_usage (some data) today).sessions = 0) ∧
      (∀ day, (data.dailyModelTokens.getD []).find? (fun d => d.date == some today) = some day →
        (get_today_usage (some data) today).output_tokens
          = ((day.tokensByModel.getD []).map Prod.snd).sum ∧
        day.date = some today) ∧
      ((data.dailyModelTokens.getD []).find? (fun d => d.date == some today) = none →
        (get_today_usage (some data) today).output_tokens = 0) ∧
      (get_today_usage (some data) today).cost_usd
        = ((data.modelUsage.getD []).map (fun p => p.2.costUSD.getD 0)).sum := by
  refine ⟨rfl, ?_⟩
  intro data
  refine ⟨?_, ?_, ?_, ?_, ?_⟩
  · intro day hday
    have hp := List.find?_some hday
    simp only [beq_iff_eq] at hp
    refine ⟨?_, ?_, hp⟩ <;> simp [get_today_usage, hday]
  · intro hnone
    constructor <;> simp [get_today_usage, hnone]
  · intro day hday
    have hp := List.find?_some hday
    simp only [beq_iff_eq] at hp
    refine ⟨?_, hp⟩
    simp [get_today_usage, hday, foldl_add_map]
  · intro hnone
    simp [get_today_usage, hnone]
  · simp [get_today_usage, foldl_add_map]

theorem C6_today_usage_witness :
    ((exStats850.dailyModelTokens.getD []).find? (fun d => d.date == some 0)
      = some ⟨some 0, some [("claude", 850)]⟩) ∧
    (get_today_usage (some exStats850) 0).output_tokens = 850 := by
  have hfind : (exStats850.dailyModelTokens.getD []).find? (fun d => d.date == some 0)
      = some ⟨some 0, some [("claude", 850)]⟩ := by decide
  refine ⟨hfind, ?_⟩
  have h := ((C6_today_usage 0).2 exStats850).2.2.1 ⟨some 0, some [("claude", 850)]⟩ hfind
  rw [h.1]
  decide

/-- C7: the weekly snapshot sums message counts, session counts and output
tokens over exactly those records whose date is at least the most recent
Monday at or before `now` (which is `now - weekday(now)`, with weekday(Monday)
= 0); records dated before that Monday, such as the prior Sunday, contribute
nothing. -/
theorem C7_weekly_usage (now : ℤ) :
    (pyWeekday (now - pyWeekday now) = 0 ∧ now - pyWeekday now ≤ now ∧
      (∀ m : ℤ, m ≤ now → pyWeekday m = 0 → m ≤ now - pyWeekday now)) ∧
    get_weekly_usage none now = ⟨0, 0, 0⟩ ∧
    (∀ d : ℤ, d < now - pyWeekday now → dateGe (some d) (now - pyWeekday now) = false) ∧
    ∀ data : StatsData,
      (get_weekly_usage (some data) now).messages =
        (((data.dailyActivity.getD []).filter
            (fun d => dateGe d.date (now - pyWeekday now))).map
          (fun d => d.messageCount.getD 0)).sum ∧
      (get_weekly_usage (some data) now).sessions =
        (((data.dailyActivity.getD []).filter
            (fun d => dateGe d.date (now - pyWeekday now))).map
          (fun d => d.sessionCount.getD 0)).sum ∧
      (get_weekly_usage (some data) now).output_tokens =
        (((data.dailyModelTokens.getD []).filter
            (fun d => dateGe d.date (now - pyWeekday now))).map
          (fun d => ((d.tokensByModel.getD []).map Prod.snd).sum)).sum := by
  refine ⟨⟨?_, ?_, ?_⟩, rfl, ?_, ?_⟩
  · unfold pyWeekday; omega
  · unfold pyWeekday; omega
  · intro m hm hwd; unfold pyWeekday at *; omega
  · intro d hd; simp only [dateGe, decide_eq_false_iff_not]; omega
  · intro data
    refine ⟨?_, ?_, ?_⟩
    · simp [get_weekly_usage, foldl_filter_add_map]
    · simp [get_weekly_usage, foldl_filter_add_map]
    · simp [get_weekly_usage, foldl_filter_nested]

theorem C7_weekly_usage_witness :
    ((4 : ℤ) ≤ 8 ∧ pyWeekday 4 = 0 ∧ (4 : ℤ) ≤ 8 - pyWeekday 8) ∧
    (get_weekly_usage (some exStatsWeek) 8).messages =
      (((exStatsWeek.dailyActivity.getD []).filter
          (fun d => dateGe d.date (8 - pyWeekday 8))).map
        (fun d => d.messageCount.getD 0)).sum ∧
    (get_weekly_usage (some exStatsWeek) 8).messages = 60 := by
  have h := ((C7_weekly_usage 8).2.2.2 exStatsWeek).1
  exact ⟨⟨by decide, by decide,
          (C7_weekly_usage 8).1.2.2 4 (by decide) (by decide)⟩,
         h, by rw [h]; decide⟩

lemma rollover_date (d : ℤ) (st : DaemonState) :
    (rollover d st).daily_tokens_warned_date = some d := by
  unfold rollover
  split
  · rfl
  · next h => exact not_not.mp h

lemma rollover_warned (d : ℤ) (st : DaemonState) :
    (rollover d st).daily_tokens_warned = true ↔ warnedFor d st := by
  unfold rollover warnedFor
  split
  · next h => simp [h]
  · next h => simp [not_not.mp h]

lemma rollover_errors (d : ℤ) (st : DaemonState) :
    (rollover d st).errors = st.errors := by
  unfold rollover
  split <;> rfl

lemma refreshStep_warned (cfg : Config) (st : DaemonState) (inp : TickInput) :
    (refreshStep cfg st inp).1.daily_tokens_warned = st.daily_tokens_warned ∧
    (refreshStep cfg st inp).1.daily_tokens_warned_date = st.daily_tokens_warned_date := by
  unfold refreshStep
  dsimp only
  split
  · split
    · split <;> exact ⟨rfl, rfl⟩
    · exact ⟨rfl, rfl⟩
  · exact ⟨rfl, rfl⟩

lemma refreshStep_errors (cfg : Config) (st : DaemonState) (inp : TickInput) :
    ((refreshStep cfg st inp).2.2.2 = true →
      (refreshStep cfg st inp).1.errors = lastN 10 (st.errors ++ [refreshFailMsg inp.nowIso])) ∧
    ((refreshStep cfg st inp).2.2.2 = false →
      (refreshStep cfg st inp).1.errors = st.errors) := by
  unfold refreshStep
  dsimp only
  split
  · split
    · split
      · exact ⟨fun h => Bool.noConfusion h, fun _ => rfl⟩
      · exact ⟨fun _ => rfl, fun h => Bool.noConfusion h⟩
    · exact ⟨fun h => Bool.noConfusion h, fun _ => rfl⟩
  · exact ⟨fun h => Bool.noConfusion h, fun _ => rfl⟩

lemma usageStep_alert_iff (cfg : Config) (st : DaemonState) (inp : TickInput) :
    (usageStep cfg st inp).2 = true ↔
      ∃ content, inp.stats = some content ∧
        (cfg.usage_warn_percent : ℚ) ≤ usagePct cfg.daily_output_token_budget
          (get_today_usage content inp.today).output_tokens ∧
        st.daily_tokens_warned = false := by
  rcases hs : inp.stats with _ | content
  · simp [usageStep, hs]
  · simp only [usageStep, hs]
    constructor
    · intro halert
      by_cases h : (cfg.usage_warn_percent : ℚ) ≤ usagePct cfg.daily_output_token_budget
          (get_today_usage content inp.today).output_tokens ∧
          st.daily_tokens_warned = false
      · exact ⟨content, rfl, h.1, h.2⟩
      · rw [if_neg h] at halert
        cases halert
    · rintro ⟨c, hc, hle, hw⟩
      injection hc with hc
      subst hc
      rw [if_pos ⟨hle, hw⟩]

lemma usageStep_preserve (cfg : Config) (st : DaemonState) (inp : TickInput) :
    (usageStep cfg st inp).1.daily_tokens_warned_date = st.daily_tokens_warned_date ∧
    (usageStep cfg st inp).1.errors = st.errors ∧
    ((usageStep cfg st inp).2 = true → (usageStep cfg st inp).1.daily_tokens_warned = true) ∧
    ((usageStep cfg st inp).2 = false → (usageStep cfg st inp).1 = st) := by
  unfold usageStep
  dsimp only
  split
  · split
    · exact ⟨rfl, rfl, fun _ => rfl, fun h => Bool.noConfusion h⟩
    · exact ⟨rfl, rfl, fun h => Bool.noConfusion h, fun _ => rfl⟩
  · exact ⟨rfl, rfl, fun h => Bool.noConfusion h, fun _ => rfl⟩

lemma usageStep_warned_true (cfg : Config) (st : DaemonState) (inp : TickInput)
    (h : st.daily_tokens_warned = true) :
    usageStep cfg st inp = (st, false) := by
  rcases hs : inp.stats with _ | content
  · simp [usageStep, hs]
  · simp [usageStep, hs, h]

lemma tick_state_def (cfg : Config) (st : DaemonState) (inp : TickInput) :
    (tick cfg st inp).state
      = (usageStep cfg (refreshStep cfg (rollover inp.today st) inp).1 inp).1 := rfl

lemma tick_alert_def (cfg : Config) (st : DaemonState) (inp : TickInput) :
    (tick cfg st inp).usageAlert
      = (usageStep cfg (refreshStep cfg (rollover inp.today st) inp).1 inp).2 := rfl

lemma tick_fail_def (cfg : Config) (st : DaemonState) (inp : TickInput) :
    (tick cfg st inp).refreshFailAlert
      = (refreshStep cfg (rollover inp.today st) inp).2.2.2 := rfl

lemma tick_alert_iff (cfg : Config) (st : DaemonState) (inp : TickInput) :
    (tick cfg st inp).usageAlert = true ↔
      ∃ content, inp.stats = some content ∧
        (cfg.usage_warn_percent : ℚ) ≤ usagePct cfg.daily_output_token_budget
          (get_today_usage content inp.today).output_tokens ∧
        ¬ warnedFor inp.today st := by
  rw [tick_alert_def, usageStep_alert_iff]
  have hw : (refreshStep cfg (rollover inp.today st) inp).1.daily_tokens_warned
      = (rollover inp.today st).daily_tokens_warned :=
    (refreshStep_warned cfg (rollover inp.today st) inp).1
  constructor
  · rintro ⟨c, hc, hle, hwf⟩
    refine ⟨c, hc, hle, ?_⟩
    rw [hw] at hwf
    intro hcontra
    rw [(rollover_warned inp.today st).mpr hcontra] at hwf
    cases hwf
  · rintro ⟨c, hc, hle, hnw⟩
    refine ⟨c, hc, hle, ?_⟩
    rw [hw]
    cases hb : (rollover inp.today st).daily_tokens_warned
    · rfl
    · exact absurd ((rollover_warned inp.today st).mp hb) hnw

lemma tick_date (cfg : Config) (st : DaemonState) (inp : TickInput) :
    (tick cfg st inp).state.daily_tokens_warned_date = some inp.today := by
  rw [tick_state_def, (usageStep_preserve cfg _ inp).1, (refreshStep_warned cfg _ inp).2]
  exact rollover_date inp.today st

lemma tick_alert_sets (cfg : Config) (st : DaemonState) (inp : TickInput)
    (h : (tick cfg st inp).usageAlert = true) :
    warnedFor inp.today (tick cfg st inp).state := by
  constructor
  · rw [tick_state_def]
    exact (usageStep_preserve cfg _ inp).2.2.1 (by rw [← tick_alert_def]; exact h)
  · exact tick_date cfg st inp

lemma tick_warned_stable (cfg : Config) (st : DaemonState) (inp : TickInput) (d : ℤ)
    (hwf : warnedFor d st) (ht : inp.today = d) :
    (tick cfg st inp).usageAlert = false ∧ warnedFor d (tick cfg st inp).state := by
  subst ht
  have halert : (tick cfg st inp).usageAlert = false := by
    cases hb : (tick cfg st inp).usageAlert
    · rfl
    · rcases (tick_alert_iff cfg st inp).mp hb with ⟨c, -, -, hnw⟩
      exact absurd hwf hnw
  refine ⟨halert, ?_, tick_date cfg st inp⟩
  rw [tick_state_def]
  have hro : (rollover inp.today st).daily_tokens_warned = true :=
    (rollover_warned inp.today st).mpr hwf
  have hrs : (refreshStep cfg (rollover inp.today st) inp).1.daily_tokens_warned = true := by
    rw [(refreshStep_warned cfg _ inp).1]
    exact hro
  rw [usageStep_warned_true cfg _ inp hrs]
  exact hrs

lemma alertCount_cons (r : TickResult) (rs : List TickResult) :
    alertCount (r :: rs) = (if r.usageAlert then 1 else 0) + alertCount rs := by
  cases hb : r.usageAlert <;> simp [alertCount, List.filter_cons, hb, Nat.add_comm]

lemma runLoop_cons (cfg : Config) (st : DaemonState) (i : TickInput) (is : List TickInput) :
    runLoop cfg st (i :: is)
      = ((runLoop cfg (tick cfg st i).state is).1,
         tick cfg st i :: (runLoop cfg (tick cfg st i).state is).2) := rfl

lemma runLoop_alerts_zero (cfg : Config) (d : ℤ) (inputs : List TickInput) :
    ∀ st : DaemonState, warnedFor d st → (∀ i ∈ inputs, i.today = d) →
    alertCount (runLoop cfg st inputs).2 = 0 := by
  induction inputs with
  | nil => intro st _ _; rfl
  | cons i is ih =>
    intro st hwf hall
    have hti : i.today = d := hall i (by simp)
    have hs := tick_warned_stable cfg st i d hwf hti
    rw [runLoop_cons, alertCount_cons, hs.1]
    simpa using ih (tick cfg st i).state hs.2 (fun j hj => hall j (by simp [hj]))

lemma runLoop_alerts_le_one (cfg : Config) (d : ℤ) (inputs : List TickInput) :
    ∀ st : DaemonState, (∀ i ∈ inputs, i.today = d) →
    alertCount (runLoop cfg st inputs).2 ≤ 1 := by
  induction inputs with
  | nil => intro st _; exact Nat.zero_le 1
  | cons i is ih =>
    intro st hall
    have hti : i.today = d := hall i (by simp)
    rw [runLoop_cons, alertCount_cons]
    cases hb : (tick cfg st i).usageAlert
    · simpa using ih (tick cfg st i).state (fun j hj => hall j (by simp [hj]))
    · have hwf : warnedFor d (tick cfg st i).state := hti ▸ tick_alert_sets cfg st i hb
      rw [runLoop_alerts_zero cfg d is (tick cfg st i).state hwf
        (fun j hj => hall j (by simp [hj]))]
      simp

/-- C1: every tick stamps the warned-date with today (the rollover resets the
latch before the threshold is evaluated); a usage alert fires exactly when the
stats cache was located and the usage percentage reaches the warn percentage
while the effective latch (warned *for today*) is off; firing sets the latch;
hence over any sequence of ticks within one UTC day at most one usage alert
fires. -/
theorem C1_daily_warn_latch :
    (∀ (cfg : Config) (st : DaemonState) (inp : TickInput),
      (tick cfg st inp).state.daily_tokens_warned_date = some inp.today) ∧
    (∀ (cfg : Config) (st : DaemonState) (inp : TickInput),
      ((tick cfg st inp).usageAlert = true ↔
        ∃ content, inp.stats = some content ∧
          (cfg.usage_warn_percent : ℚ) ≤ usagePct cfg.daily_output_token_budget
            (get_today_usage content inp.today).output_tokens ∧
          ¬ warnedFor inp.today st)) ∧
    (∀ (cfg : Config) (st : DaemonState) (inp : TickInput),
      (tick cfg st inp).usageAlert = true → warnedFor inp.today (tick cfg st inp).state) ∧
    (∀ (cfg : Config) (st : DaemonState) (d : ℤ) (inputs : List TickInput),
      (∀ i ∈ inputs, i.today = d) → alertCount (runLoop cfg st inputs).2 ≤ 1) :=
  ⟨tick_date, tick_alert_iff, tick_alert_sets,
   fun cfg st d inputs h => runLoop_alerts_le_one cfg d inputs st h⟩

theorem C1_daily_warn_latch_witness :
    (exInp850.today = 0 ∧ exInp900.today = 0) ∧
    alertCount (runLoop exCfg initialState [exInp850, exInp900]).2 ≤ 1 :=
  ⟨⟨rfl, rfl⟩,
   C1_daily_warn_latch.2.2.2 exCfg initialState 0 [exInp850, exInp900] (by decide)⟩

/-- C2: the `except Exception` at the tick boundary catches every error raised
inside the tick body (in the model, a raise is recorded in the result's
`raised` field), so the loop processes every input of any trace — the final
state is the fold of all the ticks and no tick is skipped or fatal. -/
theorem C2_no_tick_kills_loop (cfg : Config) (st : DaemonState) (inputs : List TickInput) :
    ((runLoop cfg st inputs).2).length = inputs.length ∧
    (runLoop cfg st inputs).1 = inputs.foldl (fun s i => (tick cfg s i).state) st := by
  induction inputs generalizing st with
  | nil => exact ⟨rfl, rfl⟩
  | cons i is ih =>
    rw [runLoop_cons]
    exact ⟨by simp [(ih (tick cfg st i).state).1],
           by simp [(ih (tick cfg st i).state).2]⟩

/-- C8 counterexample: with budget 0 *and* warn percent 0, the guarded usage
percentage is 0 yet `0 ≥ 0` holds, so a usage alert does fire — refuting "no
usage alert can fire ... for every warnPercent setting". -/
theorem C8_counterexample_zero_warn :
    exCfgZero.daily_output_token_budget ≤ 0 ∧
    (tick exCfgZero initialState exInpZero).usageAlert = true := by
  exact ⟨by decide, by decide⟩

/-- C8 (amended): a non-positive budget forces the computed usage percentage
to 0 for every token count, and no usage alert can fire on such a tick
whenever the warn percentage is positive (for warn percentages ≤ 0 an alert
can still fire, since pct = 0 meets the threshold). -/
theorem C8_budget_guard (cfg : Config) (st : DaemonState) (inp : TickInput)
    (hb : cfg.daily_output_token_budget ≤ 0) :
    (∀ t : ℤ, usagePct cfg.daily_output_token_budget t = 0) ∧
    (0 < cfg.usage_warn_percent → (tick cfg st inp).usageAlert = false) := by
  have hz : ∀ t : ℤ, usagePct cfg.daily_output_token_budget t = 0 := by
    intro t
    unfold usagePct
    rw [if_neg (by omega)]
  refine ⟨hz, ?_⟩
  intro hw
  cases hb2 : (tick cfg st inp).usageAlert
  · rfl
  · exfalso
    rcases (tick_alert_iff cfg st inp).mp hb2 with ⟨c, -, hle, -⟩
    rw [hz] at hle
    have hwq : (0 : ℚ) < (cfg.usage_warn_percent : ℚ) := by exact_mod_cast hw
    linarith

theorem C8_budget_guard_witness :
    ((⟨85, 3600, -5⟩ : Config).daily_output_token_budget ≤ 0 ∧ (0 : ℤ) < 85) ∧
    usagePct (-5) 850 = 0 ∧
    (tick ⟨85, 3600, -5⟩ initialState exInp850).usageAlert = false :=
  ⟨⟨by decide, by decide⟩,
   (C8_budget_guard ⟨85, 3600, -5⟩ initialState exInp850 (by decide)).1 850,
   (C8_budget_guard ⟨85, 3600, -5⟩ initialState exInp850 (by decide)).2 (by decide)⟩

lemma lastN_length_le (n : ℕ) (l : List String) : (lastN n l).length ≤ n := by
  unfold lastN
  rw [List.length_drop]
  omega

lemma tick_errors (cfg : Config) (st : DaemonState) (inp : TickInput) :
    ((tick cfg st inp).refreshFailAlert = true →
      (tick cfg st inp).state.errors = lastN 10 (st.errors ++ [refreshFailMsg inp.nowIso])) ∧
    ((tick cfg st inp).refreshFailAlert = false →
      (tick cfg st inp).state.errors = st.errors) := by
  have hu : (tick cfg st inp).state.errors
      = (refreshStep cfg (rollover inp.today st) inp).1.errors := by
    rw [tick_state_def]
    exact (usageStep_preserve cfg _ inp).2.1
  have hfail := refreshStep_errors cfg (rollover inp.today st) inp
  rw [rollover_errors] at hfail
  constructor
  · intro h
    rw [tick_fail_def] at h
    rw [hu]
    exact hfail.1 h
  · intro h
    rw [tick_fail_def] at h
    rw [hu]
    exact hfail.2 h

lemma tick_errors_le (cfg : Config) (st : DaemonState) (inp : TickInput)
    (h : st.errors.length ≤ 10) : (tick cfg st inp).state.errors.length ≤ 10 := by
  cases hb : (tick cfg st inp).refreshFailAlert
  · rw [(tick_errors cfg st inp).2 hb]
    exact h
  · rw [(tick_errors cfg st inp).1 hb]
    exact lastN_length_le 10 _

lemma runLoop_errors_le (cfg : Config) (inputs : List TickInput) :
    ∀ st : DaemonState, st.errors.length ≤ 10 →
    (runLoop cfg st inputs).1.errors.length ≤ 10 ∧
    ∀ r ∈ (runLoop cfg st inputs).2, r.state.errors.length ≤ 10 := by
  induction inputs with
  | nil =>
    intro st h
    exact ⟨h, by intro r hr; cases hr⟩
  | cons i is ih =>
    intro st h
    have h1 := tick_errors_le cfg st i h
    have h2 := ih (tick cfg st i).state h1
    rw [runLoop_cons]
    refine ⟨h2.1, ?_⟩
    intro r hr
    rcases List.mem_cons.mp hr with hr | hr
    · rw [hr]
      exact h1
    · exact h2.2 r hr

/-- C9: the error log is a bounded ring — a failed-refresh tick's errors equal
the last 10 of the previous errors with the new message appended (oldest
discarded first), any other tick leaves them unchanged, so from any state
within the bound every tick and every run of ticks keeps the length at most
10. -/
theorem C9_bounded_error_log :
    (∀ (cfg : Config) (st : DaemonState) (inp : TickInput),
      (tick cfg st inp).refreshFailAlert = true →
      (tick cfg st inp).state.errors = lastN 10 (st.errors ++ [refreshFailMsg inp.nowIso])) ∧
    (∀ (cfg : Config) (st : DaemonState) (inp : TickInput),
      (tick cfg st inp).refreshFailAlert = false →
      (tick cfg st inp).state.errors = st.errors) ∧
    (∀ (cfg : Config) (st : DaemonState) (inp : TickInput),
      st.errors.length ≤ 10 → (tick cfg st inp).state.errors.length ≤ 10) ∧
    (∀ (cfg : Config) (st : DaemonState) (inputs : List TickInput),
      st.errors.length ≤ 10 →
      (runLoop cfg st inputs).1.errors.length ≤ 10 ∧
      ∀ r ∈ (runLoop cfg st inputs).2, r.state.errors.length ≤ 10) :=
  ⟨fun cfg st inp => (tick_errors cfg st inp).1,
   fun cfg st inp => (tick_errors cfg st inp).2,
   tick_errors_le,
   fun cfg st inputs h => runLoop_errors_le cfg inputs st h⟩

theorem C9_bounded_error_log_witness :
    initialState.errors.length ≤ 10 ∧
    (runLoop exCfg initialState (List.replicate 15 exInpFail)).1.errors.length ≤ 10 :=
  ⟨by decide,
   (C9_bounded_error_log.2.2.2 exCfg initialState (List.replicate 15 exInpFail) (by decide)).1⟩

end ClaudeMonitor
